import Mathlib

/-!
# CrashGuard-S dispatch engine: formal model

Shallow embedding of `driver_app/server.py` (with seed data from
`driver_app/init_db.py`): the incident (crash) lifecycle, the haversine
dispatch selector, the mission handlers and the SSE event fanout.

Modelling conventions:
* SQLite rows become Lean structures; a table is a `List` of rows kept in
  insertion (rowid) order, which is the iteration order the handlers see.
* Python floats become real numbers (`ℝ`); float rounding is out of scope.
* An SQL `UPDATE ... WHERE id=?` becomes a `List.map` guarded by the id test.
* Each `queue.Queue(maxsize=30)` becomes a `Subscription` with a buffer list
  and a capacity; `put_nowait` appends when the buffer has room and drops the
  message otherwise (the `except queue.Full: pass` in the source).  A
  subscription carries a channel identifier `cid` standing for Python object
  identity, so that registry membership is expressible for pure values.
* Event payloads are modelled as a closed datatype of the event kinds the
  server emits; the JSON/SSE text rendering carries no additional state.
-/

namespace CrashGuard

/-- The status strings stored in the `crashes.status` column. -/
inductive CrashStatus where
  | new
  | waiting_for_driver
  | en_route
  | resolved
  | no_unit_available
deriving DecidableEq

/-- A row of the `crashes` table (columns used by the engine; the
`timestamp` and `snapshot_path` columns are never read by any transition). -/
structure Crash where
  id : Nat
  latitude : ℝ
  longitude : ℝ
  status : CrashStatus
  assigned_ambulance_id : Option String

/-- A row of the `ambulances` table. -/
structure Ambulance where
  id : String
  latitude : ℝ
  longitude : ℝ
  is_available : Bool

/-- A row of the `drivers` table (credential columns are not modelled:
the engine only reads `id`, `unit_id` and `is_on_duty`). -/
structure Driver where
  id : Nat
  unit_id : String
  is_on_duty : Bool
deriving DecidableEq

/-- The event kinds pushed over SSE by `server.py`. -/
inductive Event where
  | connected (unit : String)
  | mission_assigned (crash_id : Nat) (unit_id : String)
  | status_update (crash_id : Nat) (status : CrashStatus)
  | availability_update (unit_id : String) (on_duty : Bool)
deriving DecidableEq

/-- One SSE subscription: a bounded buffer (`queue.Queue(maxsize=30)`).
`cid` models the Python object identity of the queue. -/
structure Subscription where
  cid : Nat
  maxsize : Nat
  items : List Event
deriving DecidableEq

/-- The registry `_subscribers : dict[str, list[queue.Queue]]`. -/
abbrev Registry := List (String × List Subscription)

/-- `q.put_nowait(msg)` under `try/except queue.Full: pass`: append when the
buffer has room, silently drop the message when it is full. -/
def put_nowait (q : Subscription) (e : Event) : Subscription :=
  if q.items.length < q.maxsize then { q with items := q.items ++ [e] } else q

/-- `push_event(unit_id, ...)`: offer the message to every queue registered
for `unit_id`; other units' queues are not touched. -/
def push_event (subs : Registry) (unit_id : String) (e : Event) : Registry :=
  subs.map fun p => if p.1 = unit_id then (p.1, p.2.map fun q => put_nowait q e) else p

/-- `push_all(...)`: offer the message to every queue of every unit. -/
def push_all (subs : Registry) (e : Event) : Registry :=
  subs.map fun p => (p.1, p.2.map fun q => put_nowait q e)

/-- `_subscribers.setdefault(unit_id, []).append(q)` in `sse_stream`. -/
def sse_subscribe (subs : Registry) (unit_id : String) (q : Subscription) : Registry :=
  if subs.any fun p => p.1 == unit_id then
    subs.map fun p => if p.1 = unit_id then (p.1, p.2 ++ [q]) else p
  else subs ++ [(unit_id, [q])]

/-- `list.remove` by object identity: drop the first element with the
given channel id. -/
def removeFirstSub : List Subscription → Nat → List Subscription
  | [], _ => []
  | q :: qs, cid => if q.cid = cid then qs else q :: removeFirstSub qs cid

/-- The `cleanup` closure of `sse_stream`: `_subscribers[unit_id].remove(q)`
under `except: pass` (a missing key or queue leaves the registry unchanged). -/
def sse_cleanup (subs : Registry) (unit_id : String) (cid : Nat) : Registry :=
  subs.map fun p => if p.1 = unit_id then (p.1, removeFirstSub p.2 cid) else p

/-- Dict lookup `_subscribers.get(u, [])`: the queues of the first (unique)
entry for `u`, or `[]` when `u` has no entry. -/
def queuesOf (subs : Registry) (u : String) : List Subscription :=
  ((subs.find? fun p => p.1 == u).map Prod.snd).getD []

/-- The channel ids registered for a unit (the registry as seen up to
buffer contents). -/
def queueIdsOf (subs : Registry) (u : String) : List Nat :=
  (queuesOf subs u).map Subscription.cid

/-- The registry with buffer contents erased: which units map to which
channels (`cid` stands for queue object identity). -/
def registryShape (subs : Registry) : List (String × List Nat) :=
  subs.map fun p => (p.1, p.2.map Subscription.cid)

/-- First occurrence removal on channel ids, mirroring `removeFirstSub`. -/
def removeFirstNat : List Nat → Nat → List Nat
  | [], _ => []
  | n :: ns, cid => if n = cid then ns else n :: removeFirstNat ns cid

/-! ## Distance calculator (`haversine`) -/

/-- `math.radians`: degrees to radians. -/
noncomputable def radians (x : ℝ) : ℝ := x * (Real.pi / 180)

/-- `math.atan2` on the reals (the standard two-argument arctangent; signed
zeros do not exist on `ℝ`). -/
noncomputable def atan2 (y x : ℝ) : ℝ :=
  if 0 < x then Real.arctan (y / x)
  else if x = 0 then
    if 0 < y then Real.pi / 2 else if y < 0 then -(Real.pi / 2) else 0
  else if 0 ≤ y then Real.arctan (y / x) + Real.pi
  else Real.arctan (y / x) - Real.pi

/-- `haversine(lat1, lon1, lat2, lon2)` from `server.py`. -/
noncomputable def haversine (lat1 lon1 lat2 lon2 : ℝ) : ℝ :=
  let R : ℝ := 6371.0
  let p1 := radians lat1
  let p2 := radians lat2
  let dp := radians (lat2 - lat1)
  let dl := radians (lon2 - lon1)
  let a := Real.sin (dp / 2) ^ 2 + Real.cos p1 * Real.cos p2 * Real.sin (dl / 2) ^ 2
  R * 2 * atan2 (Real.sqrt a) (Real.sqrt (1 - a))

/-! ## State and operations -/

/-- The mutable state of the server: the three SQLite tables, the SSE
registry, and the autoincrement counter backing `crashes.id`. -/
structure State where
  crashes : List Crash
  ambulances : List Ambulance
  drivers : List Driver
  subscribers : Registry
  next_crash_id : Nat

/-- The Unit Directory query of `dispatch`:
`SELECT a.* FROM ambulances a JOIN drivers d ON d.unit_id = a.id
 WHERE a.is_available=1 AND d.is_on_duty=1`
(one row per available ambulance staffed by an on-duty driver; the seed data
assigns at most one driver per unit). -/
def availableStaffedUnits (s : State) : List Ambulance :=
  s.ambulances.filter fun a =>
    a.is_available && s.drivers.any fun d => d.unit_id == a.id && d.is_on_duty

/-- The candidate list of `dispatch` after the `exclude_unit` filter
(`if exclude_unit:` is truthy exactly when a unit id was passed, unit ids
being non-empty strings). -/
def dispatchCandidates (s : State) (exclude_unit : Option String) : List Ambulance :=
  match exclude_unit with
  | some ex => (availableStaffedUnits s).filter fun u => u.id != ex
  | none => availableStaffedUnits s

/-- Python's `min(x :: xs, key=key)`: fold keeping the current element unless
a strictly smaller key appears, so the first minimum wins ties. -/
noncomputable def pyMinKey {α : Type} (key : α → ℝ) (x : α) (xs : List α) : α :=
  xs.foldl (fun acc u => if key u < key acc then u else acc) x

/-- `dispatch(crash_id, crash_lat, crash_lon, exclude_unit)`: select the
nearest available+staffed unit (excluding `exclude_unit` if given), update
the crash row, and notify the chosen unit; returns the chosen unit id. -/
noncomputable def dispatch (s : State) (crash_id : Nat) (crash_lat crash_lon : ℝ)
    (exclude_unit : Option String) : State × Option String :=
  match dispatchCandidates s exclude_unit with
  | [] =>
    ({ s with crashes := s.crashes.map fun c =>
        if c.id = crash_id then { c with status := .no_unit_available } else c }, none)
  | u :: us =>
    let nearest := pyMinKey (fun v => haversine crash_lat crash_lon v.latitude v.longitude) u us
    let s1 : State := { s with crashes := s.crashes.map fun c =>
        if c.id = crash_id then
          { c with assigned_ambulance_id := some nearest.id, status := .waiting_for_driver }
        else c }
    ({ s1 with subscribers :=
        push_event s1.subscribers nearest.id (.mission_assigned crash_id nearest.id) },
      some nearest.id)

/-- `/api/mission/accept`: unconditionally set the crash to `en_route`, mark
the caller's unit unavailable, and broadcast the status update. -/
def accept_mission (s : State) (driver_unit : String) (crash_id : Nat) : State :=
  let s1 : State := { s with
    crashes := s.crashes.map fun c =>
      if c.id = crash_id then { c with status := .en_route } else c,
    ambulances := s.ambulances.map fun a =>
      if a.id = driver_unit then { a with is_available := false } else a }
  { s1 with subscribers := push_all s1.subscribers (.status_update crash_id .en_route) }

/-- `/api/mission/decline`: read the crash row, reset it to `new` with no
assignment, then re-dispatch excluding the caller's unit (only when the row
exists); returns the reassigned unit id. -/
noncomputable def decline_mission (s : State) (driver_unit : String) (crash_id : Nat) :
    State × Option String :=
  let row := s.crashes.find? fun c => c.id == crash_id
  let s1 : State := { s with crashes := s.crashes.map fun c =>
      if c.id = crash_id then { c with status := .new, assigned_ambulance_id := none } else c }
  match row with
  | some r => dispatch s1 crash_id r.latitude r.longitude (some driver_unit)
  | none => (s1, none)

/-- `/api/mission/arrived`: unconditionally set the crash to `resolved`, mark
the caller's unit available again, and broadcast the status update.  The
`assigned_ambulance_id` column is not written. -/
def arrived (s : State) (driver_unit : String) (crash_id : Nat) : State :=
  let s1 : State := { s with
    crashes := s.crashes.map fun c =>
      if c.id = crash_id then { c with status := .resolved } else c,
    ambulances := s.ambulances.map fun a =>
      if a.id = driver_unit then { a with is_available := true } else a }
  { s1 with subscribers := push_all s1.subscribers (.status_update crash_id .resolved) }

/-- `/api/simulate_crash`: insert a fresh crash in status `new` (the random
offsets from the Thrissur base point are passed in as `crash_lat`,
`crash_lon`), then dispatch it; the snapshot capture touches no field read by
any transition and is not modelled.  Returns the new state, the new crash id
and the assigned unit id. -/
noncomputable def simulate_crash (s : State) (crash_lat crash_lon : ℝ) :
    State × Nat × Option String :=
  let crash_id := s.next_crash_id
  let s1 : State := { s with
    crashes := s.crashes ++ [⟨crash_id, crash_lat, crash_lon, .new, none⟩],
    next_crash_id := crash_id + 1 }
  let res := dispatch s1 crash_id crash_lat crash_lon none
  (res.1, crash_id, res.2)

/-- `/api/availability`: set the driver's `is_on_duty` and the unit's
`is_available` to the requested flag and broadcast the change. -/
def set_availability (s : State) (d : Driver) (on_duty : Bool) : State :=
  let s1 : State := { s with
    drivers := s.drivers.map fun x =>
      if x.id = d.id then { x with is_on_duty := on_duty } else x,
    ambulances := s.ambulances.map fun a =>
      if a.id = d.unit_id then { a with is_available := on_duty } else a }
  { s1 with subscribers := push_all s1.subscribers (.availability_update d.unit_id on_duty) }

/-- `/api/logout`: force the driver off duty and the unit unavailable. -/
def logout (s : State) (d : Driver) : State :=
  { s with
    drivers := s.drivers.map fun x =>
      if x.id = d.id then { x with is_on_duty := false } else x,
    ambulances := s.ambulances.map fun a =>
      if a.id = d.unit_id then { a with is_available := false } else a }

/-- The database seeded by `init_db.py`: five available ambulances, five
off-duty drivers, no crashes, no subscriptions. -/
noncomputable def initState : State where
  crashes := []
  ambulances :=
    [⟨"Unit-01", 10.5276, 76.2144, true⟩,
     ⟨"Unit-02", 10.5167, 76.2167, true⟩,
     ⟨"Unit-03", 9.9312, 76.2673, true⟩,
     ⟨"Unit-04", 10.0159, 76.3419, true⟩,
     ⟨"Unit-05", 10.4515, 76.1875, true⟩]
  drivers :=
    [⟨1, "Unit-01", false⟩, ⟨2, "Unit-02", false⟩, ⟨3, "Unit-03", false⟩,
     ⟨4, "Unit-04", false⟩, ⟨5, "Unit-05", false⟩]
  subscribers := []
  next_crash_id := 1

/-- The states reachable from the seeded database through the public
handlers.  Handler arguments mirror what the HTTP layer supplies: `crash_id`
is client-controlled (any value), the acting driver must be a row of the
`drivers` table (a logged-in session), and `simulate_crash` draws its
coordinates from `uniform(-0.05, 0.05)` offsets around the Thrissur base
point. -/
inductive Reachable : State → Prop where
  | init : Reachable initState
  | simulate (s : State) (d1 d2 : ℝ)
      (h1 : -0.05 ≤ d1 ∧ d1 ≤ 0.05) (h2 : -0.05 ≤ d2 ∧ d2 ≤ 0.05) :
      Reachable s → Reachable (simulate_crash s (10.5276 + d1) (76.2144 + d2)).1
  | accept (s : State) (d : Driver) (crash_id : Nat) (hd : d ∈ s.drivers) :
      Reachable s → Reachable (accept_mission s d.unit_id crash_id)
  | decline (s : State) (d : Driver) (crash_id : Nat) (hd : d ∈ s.drivers) :
      Reachable s → Reachable (decline_mission s d.unit_id crash_id).1
  | arrive (s : State) (d : Driver) (crash_id : Nat) (hd : d ∈ s.drivers) :
      Reachable s → Reachable (arrived s d.unit_id crash_id)
  | availability (s : State) (d : Driver) (hd : d ∈ s.drivers) (on_duty : Bool) :
      Reachable s → Reachable (set_availability s d on_duty)
  | logout_op (s : State) (d : Driver) (hd : d ∈ s.drivers) :
      Reachable s → Reachable (logout s d)
  | subscribe (s : State) (d : Driver) (hd : d ∈ s.drivers) (cid : Nat) :
      Reachable s →
      Reachable { s with subscribers := sse_subscribe s.subscribers d.unit_id ⟨cid, 30, []⟩ }
  | cleanup (s : State) (unit_id : String) (cid : Nat) :
      Reachable s →
      Reachable { s with subscribers := sse_cleanup s.subscribers unit_id cid }

/-! ## Observation helpers (read-only views used in statements) -/

/-- The status of the crash row with the given id, if present. -/
def statusOf (s : State) (cid : Nat) : Option CrashStatus :=
  (s.crashes.find? fun c => c.id == cid).map Crash.status

/-- The assigned unit of the crash row with the given id, if present. -/
def assignedOf (s : State) (cid : Nat) : Option (Option String) :=
  (s.crashes.find? fun c => c.id == cid).map Crash.assigned_ambulance_id

/-- The availability flag of the ambulance row with the given id, if present. -/
def availOf (s : State) (uid : String) : Option Bool :=
  (s.ambulances.find? fun a => a.id == uid).map Ambulance.is_available

end CrashGuard

namespace CrashGuard

/-! ## Fanout lemmas -/

theorem put_nowait_cid (q : Subscription) (e : Event) : (put_nowait q e).cid = q.cid := by
  unfold put_nowait; split <;> rfl

theorem queuesOf_nil (u : String) : queuesOf [] u = [] := rfl

theorem queuesOf_cons (p : String × List Subscription) (rest : Registry) (u : String) :
    queuesOf (p :: rest) u = if p.1 = u then p.2 else queuesOf rest u := by
  by_cases h : p.1 = u
  · simp [queuesOf, List.find?_cons_of_pos, h]
  · have hb : (p.1 == u) = false := by simp [h]
    simp [queuesOf, List.find?_cons_of_neg, hb, h]

theorem queuesOf_push_event (subs : Registry) (uid : String) (e : Event) (u : String) :
    queuesOf (push_event subs uid e) u =
      if u = uid then (queuesOf subs u).map (fun q => put_nowait q e) else queuesOf subs u := by
  induction subs with
  | nil =>
    simp only [push_event, List.map_nil, queuesOf_nil, List.map_nil]
    split <;> rfl
  | cons p rest ih =>
    simp only [push_event, List.map_cons] at ih ⊢
    by_cases hp : p.1 = uid
    · rw [if_pos hp, queuesOf_cons]
      by_cases hu : p.1 = u
      · have huid : u = uid := hu ▸ hp
        rw [if_pos hu, if_pos huid, queuesOf_cons, if_pos hu]
      · rw [if_neg hu, ih, queuesOf_cons, if_neg hu]
    · rw [if_neg hp, queuesOf_cons]
      by_cases hu : p.1 = u
      · have huid : ¬u = uid := fun h => hp (hu.trans h)
        rw [if_pos hu, if_neg huid, queuesOf_cons, if_pos hu]
      · rw [if_neg hu, ih, queuesOf_cons, if_neg hu]

theorem queuesOf_push_all (subs : Registry) (e : Event) (u : String) :
    queuesOf (push_all subs e) u = (queuesOf subs u).map (fun q => put_nowait q e) := by
  induction subs with
  | nil => rfl
  | cons p rest ih =>
    simp only [push_all, List.map_cons] at ih ⊢
    rw [queuesOf_cons, queuesOf_cons]
    by_cases hu : p.1 = u
    · rw [if_pos hu, if_pos hu]
    · rw [if_neg hu, if_neg hu, ih]

theorem map_cid_put (l : List Subscription) (e : Event) :
    (l.map fun q => put_nowait q e).map Subscription.cid = l.map Subscription.cid := by
  induction l with
  | nil => rfl
  | cons q qs ih => simp only [List.map_cons, put_nowait_cid, ih]

theorem registryShape_push_event (subs : Registry) (uid : String) (e : Event) :
    registryShape (push_event subs uid e) = registryShape subs := by
  induction subs with
  | nil => rfl
  | cons p rest ih =>
    simp only [push_event, registryShape, List.map_cons] at ih ⊢
    by_cases hp : p.1 = uid
    · rw [if_pos hp, map_cid_put, ih]
    · rw [if_neg hp, ih]

theorem registryShape_push_all (subs : Registry) (e : Event) :
    registryShape (push_all subs e) = registryShape subs := by
  induction subs with
  | nil => rfl
  | cons p rest ih =>
    simp only [push_all, registryShape, List.map_cons] at ih ⊢
    rw [map_cid_put, ih]

theorem queuesOf_mapAt (subs : Registry) (uid : String)
    (g : String × List Subscription → List Subscription) (u : String) :
    queuesOf (subs.map fun p => if p.1 = uid then (p.1, g p) else p) u =
      if u = uid then ((subs.find? fun p => p.1 == u).map g).getD []
      else queuesOf subs u := by
  induction subs with
  | nil =>
    simp only [List.map_nil, queuesOf_nil, List.find?_nil, Option.map_none', Option.getD_none]
    split <;> rfl
  | cons p rest ih =>
    simp only [List.map_cons]
    by_cases hp : p.1 = uid
    · rw [if_pos hp, queuesOf_cons]
      by_cases hu : p.1 = u
      · have huid : u = uid := hu ▸ hp
        rw [if_pos hu, if_pos huid, List.find?_cons_of_pos _ (by simp [hu])]
        rfl
      · have huid : ¬u = uid := fun h => hu (hp.trans h.symm)
        rw [if_neg hu, ih, if_neg huid, if_neg huid, queuesOf_cons, if_neg hu]
    · rw [if_neg hp, queuesOf_cons]
      by_cases hu : p.1 = u
      · have huid : ¬u = uid := fun h => hp (hu.trans h)
        rw [if_pos hu, if_neg huid, queuesOf_cons, if_pos hu]
      · rw [if_neg hu, ih]
        by_cases huid : u = uid
        · rw [if_pos huid, if_pos huid, List.find?_cons_of_neg _ (by simp [hu])]
        · rw [if_neg huid, if_neg huid, queuesOf_cons, if_neg hu]

theorem find?_append_none {α : Type} {p : α → Bool} (l₁ l₂ : List α)
    (h : l₁.find? p = none) : (l₁ ++ l₂).find? p = l₂.find? p := by
  induction l₁ with
  | nil => rfl
  | cons a l ih =>
    rcases hpa : p a with _ | _
    · rw [List.find?_cons_of_neg _ (by simp [hpa])] at h
      rw [List.cons_append, List.find?_cons_of_neg _ (by simp [hpa])]
      exact ih h
    · rw [List.find?_cons_of_pos _ hpa] at h
      exact absurd h (by simp)

theorem find?_append_some {α : Type} {p : α → Bool} (l₁ l₂ : List α) (a : α)
    (h : l₁.find? p = some a) : (l₁ ++ l₂).find? p = some a := by
  induction l₁ with
  | nil => simp at h
  | cons b l ih =>
    rcases hpb : p b with _ | _
    · rw [List.find?_cons_of_neg _ (by simp [hpb])] at h
      rw [List.cons_append, List.find?_cons_of_neg _ (by simp [hpb])]
      exact ih h
    · rw [List.find?_cons_of_pos _ hpb] at h
      rw [List.cons_append, List.find?_cons_of_pos _ hpb]
      exact h

theorem queuesOf_append_lastKey (subs : Registry) (uid : String) (qs : List Subscription)
    (u : String) (hany : ¬(subs.any fun p => p.1 == uid) = true) :
    queuesOf (subs ++ [(uid, qs)]) u = if u = uid then qs else queuesOf subs u := by
  by_cases hu : u = uid
  · have hnone : (subs.find? fun p => p.1 == u) = none := by
      rw [List.find?_eq_none]
      intro x hx hbe
      exact hany (List.any_eq_true.mpr ⟨x, hx, hu ▸ hbe⟩)
    have hpos : (((uid, qs) : String × List Subscription).1 == u) = true := by simp [hu]
    unfold queuesOf
    rw [find?_append_none _ _ hnone, if_pos hu,
      List.find?_cons_of_pos (p := fun r : String × List Subscription => r.1 == u) _ hpos]
    rfl
  · have hlast : (([(uid, qs)] : Registry).find? fun p => p.1 == u) = none := by
      rw [List.find?_eq_none]
      intro x hx hbe
      simp only [List.mem_singleton] at hx
      rw [hx] at hbe
      have : uid = u := by simpa using hbe
      exact hu this.symm
    rw [if_neg hu]
    unfold queuesOf
    cases hfind : subs.find? fun p => p.1 == u with
    | none => rw [find?_append_none _ _ hfind, hlast]
    | some pf => rw [find?_append_some _ _ _ hfind]

theorem queueIdsOf_subscribe (subs : Registry) (uid : String) (q : Subscription) (u : String) :
    queueIdsOf (sse_subscribe subs uid q) u =
      if u = uid then queueIdsOf subs u ++ [q.cid] else queueIdsOf subs u := by
  unfold sse_subscribe
  by_cases hany : (subs.any fun p => p.1 == uid) = true
  · rw [if_pos hany]
    unfold queueIdsOf
    rw [queuesOf_mapAt]
    by_cases hu : u = uid
    · rw [if_pos hu, if_pos hu]
      obtain ⟨p0, hp0mem, hp0⟩ := List.any_eq_true.mp hany
      have hsome : (subs.find? fun p => p.1 == u).isSome := by
        rw [List.find?_isSome]
        exact ⟨p0, hp0mem, hu ▸ hp0⟩
      obtain ⟨pf, hpf⟩ := Option.isSome_iff_exists.mp hsome
      have hq : queuesOf subs u = pf.2 := by unfold queuesOf; rw [hpf]; rfl
      rw [hpf, hq]
      simp
    · rw [if_neg hu, if_neg hu]
  · rw [if_neg hany]
    unfold queueIdsOf
    rw [queuesOf_append_lastKey subs uid [q] u hany]
    by_cases hu : u = uid
    · rw [if_pos hu, if_pos hu]
      have hnone : (subs.find? fun p => p.1 == u) = none := by
        rw [List.find?_eq_none]
        intro x hx hbe
        exact hany (List.any_eq_true.mpr ⟨x, hx, hu ▸ hbe⟩)
      have hq : queuesOf subs u = [] := by unfold queuesOf; rw [hnone]; rfl
      rw [hq]
      rfl
    · rw [if_neg hu, if_neg hu]

theorem map_cid_removeFirst (l : List Subscription) (cid : Nat) :
    (removeFirstSub l cid).map Subscription.cid = removeFirstNat (l.map Subscription.cid) cid := by
  induction l with
  | nil => rfl
  | cons a l ih =>
    simp only [removeFirstSub, List.map_cons, removeFirstNat]
    by_cases h : a.cid = cid
    · rw [if_pos h, if_pos h]
    · rw [if_neg h, if_neg h, List.map_cons, ih]

theorem queueIdsOf_cleanup (subs : Registry) (uid : String) (cid : Nat) (u : String) :
    queueIdsOf (sse_cleanup subs uid cid) u =
      if u = uid then removeFirstNat (queueIdsOf subs u) cid else queueIdsOf subs u := by
  unfold sse_cleanup queueIdsOf
  rw [queuesOf_mapAt]
  by_cases hu : u = uid
  · rw [if_pos hu, if_pos hu]
    cases hfind : subs.find? fun p => p.1 == u with
    | none =>
      have hq : queuesOf subs u = [] := by unfold queuesOf; rw [hfind]; rfl
      rw [hq]
      rfl
    | some pf =>
      have hq : queuesOf subs u = pf.2 := by unfold queuesOf; rw [hfind]; rfl
      rw [hq]
      exact map_cid_removeFirst pf.2 cid
  · rw [if_neg hu, if_neg hu]

/-- C8: publishing an event to a unit reaches exactly the queues registered
for that unit: each queue with room receives the event appended at the tail
(publish order), a full queue drops exactly that event, other units' queues
are untouched; `push_event`/`push_all` are total functions (no error reaches
the publisher) and each queue's outcome depends only on its own buffer. -/
theorem C8_push_delivery (subs : Registry) (uid : String) (e : Event) (u : String) :
    queuesOf (push_event subs uid e) u =
      (if u = uid then
        (queuesOf subs u).map fun q =>
          if q.items.length < q.maxsize then { q with items := q.items ++ [e] } else q
      else queuesOf subs u) ∧
    queuesOf (push_all subs e) u =
      (queuesOf subs u).map fun q =>
        if q.items.length < q.maxsize then { q with items := q.items ++ [e] } else q :=
  ⟨queuesOf_push_event subs uid e u, queuesOf_push_all subs e u⟩

/-- C10: `push_event` and `push_all` leave the subscriber registry (which
units map to which channels) unchanged; establishing a live connection
appends exactly one channel for its unit, and its cleanup removes exactly
that first matching channel, leaving all other units' channels alone. -/
theorem C10_publish_preserves_registry (subs : Registry) (uid : String) (e : Event)
    (q : Subscription) (cid : Nat) (u : String) :
    registryShape (push_event subs uid e) = registryShape subs ∧
    registryShape (push_all subs e) = registryShape subs ∧
    queueIdsOf (sse_subscribe subs uid q) u =
      (if u = uid then queueIdsOf subs u ++ [q.cid] else queueIdsOf subs u) ∧
    queueIdsOf (sse_cleanup subs uid cid) u =
      (if u = uid then removeFirstNat (queueIdsOf subs u) cid else queueIdsOf subs u) :=
  ⟨registryShape_push_event subs uid e, registryShape_push_all subs e,
    queueIdsOf_subscribe subs uid q u, queueIdsOf_cleanup subs uid cid u⟩

/-! ## Distance calculator lemmas -/

theorem atan2_nonneg {y x : ℝ} (hy : 0 ≤ y) (hx : 0 ≤ x) : 0 ≤ atan2 y x := by
  unfold atan2
  by_cases h1 : 0 < x
  · rw [if_pos h1]
    have ht : (0 : ℝ) ≤ y / x := div_nonneg hy h1.le
    have hm := Real.arctan_strictMono.monotone ht
    rwa [Real.arctan_zero] at hm
  · have hx0 : x = 0 := le_antisymm (not_lt.mp h1) hx
    rw [if_neg h1, if_pos hx0]
    by_cases h2 : 0 < y
    · rw [if_pos h2]
      positivity
    · rw [if_neg h2, if_neg (not_lt.mpr hy)]

theorem haversine_nonneg (lat1 lon1 lat2 lon2 : ℝ) :
    0 ≤ haversine lat1 lon1 lat2 lon2 := by
  simp only [haversine]
  exact mul_nonneg (by norm_num)
    (atan2_nonneg (Real.sqrt_nonneg _) (Real.sqrt_nonneg _))

theorem haversine_self (lat lon : ℝ) : haversine lat lon lat lon = 0 := by
  simp only [haversine, radians, sub_self, zero_mul, zero_div, Real.sin_zero]
  norm_num [atan2, Real.arctan_zero]

theorem haversine_comm (lat1 lon1 lat2 lon2 : ℝ) :
    haversine lat1 lon1 lat2 lon2 = haversine lat2 lon2 lat1 lon1 := by
  have hsin : ∀ x y : ℝ, Real.sin (radians (x - y) / 2) ^ 2
      = Real.sin (radians (y - x) / 2) ^ 2 := by
    intro x y
    have h : radians (x - y) / 2 = -(radians (y - x) / 2) := by unfold radians; ring
    rw [h, Real.sin_neg, neg_sq]
  simp only [haversine]
  rw [hsin lat2 lat1, hsin lon2 lon1,
    mul_comm (Real.cos (radians lat1)) (Real.cos (radians lat2))]

/-- C9: the haversine distance is symmetric, zero between a point and
itself, and never negative. -/
theorem C9_haversine_properties (lat1 lon1 lat2 lon2 : ℝ) :
    haversine lat1 lon1 lat2 lon2 = haversine lat2 lon2 lat1 lon1 ∧
    haversine lat1 lon1 lat1 lon1 = 0 ∧
    0 ≤ haversine lat1 lon1 lat2 lon2 :=
  ⟨haversine_comm lat1 lon1 lat2 lon2, haversine_self lat1 lon1,
    haversine_nonneg lat1 lon1 lat2 lon2⟩

/-! ## Selector lemmas: Python `min(..., key=...)` -/

theorem pyMinKey_nil {α : Type} (key : α → ℝ) (x : α) : pyMinKey key x [] = x := rfl

theorem pyMinKey_cons {α : Type} (key : α → ℝ) (x u : α) (xs : List α) :
    pyMinKey key x (u :: xs) = pyMinKey key (if key u < key x then u else x) xs := rfl

theorem pyMinKey_mem {α : Type} (key : α → ℝ) (x : α) (xs : List α) :
    pyMinKey key x xs ∈ x :: xs := by
  induction xs generalizing x with
  | nil => exact List.mem_singleton.mpr rfl
  | cons u rest ih =>
    rw [pyMinKey_cons]
    by_cases h : key u < key x
    · rw [if_pos h]
      exact List.mem_cons_of_mem x (ih u)
    · rw [if_neg h]
      rcases List.mem_cons.mp (ih x) with h3 | h3
      · rw [h3]
        exact List.mem_cons_self x (u :: rest)
      · exact List.mem_cons_of_mem x (List.mem_cons_of_mem u h3)

theorem pyMinKey_le {α : Type} (key : α → ℝ) (x : α) (xs : List α) :
    ∀ y ∈ x :: xs, key (pyMinKey key x xs) ≤ key y := by
  induction xs generalizing x with
  | nil =>
    intro y hy
    rw [List.mem_singleton] at hy
    rw [hy, pyMinKey_nil]
  | cons u rest ih =>
    rw [pyMinKey_cons]
    by_cases h : key u < key x
    · rw [if_pos h]
      intro y hy
      rcases List.mem_cons.mp hy with h1 | h1
      · rw [h1]
        exact (ih u u (List.mem_cons_self u rest)).trans h.le
      · exact ih u y h1
    · rw [if_neg h]
      intro y hy
      rcases List.mem_cons.mp hy with h1 | h1
      · rw [h1]
        exact ih x x (List.mem_cons_self x rest)
      · rcases List.mem_cons.mp h1 with h2 | h2
        · rw [h2]
          exact (ih x x (List.mem_cons_self x rest)).trans (not_lt.mp h)
        · exact ih x y (List.mem_cons_of_mem x h2)

theorem pyMinKey_first {α : Type} (key : α → ℝ) (x : α) (xs : List α) :
    ∃ l₁ l₂, x :: xs = l₁ ++ pyMinKey key x xs :: l₂ ∧
      ∀ w ∈ l₁, key (pyMinKey key x xs) < key w := by
  induction xs generalizing x with
  | nil => exact ⟨[], [], rfl, by intro w hw; exact absurd hw (List.not_mem_nil w)⟩
  | cons u rest ih =>
    rw [pyMinKey_cons]
    by_cases h : key u < key x
    · rw [if_pos h]
      obtain ⟨l₁, l₂, heq, hlt⟩ := ih u
      refine ⟨x :: l₁, l₂, ?_, ?_⟩
      · rw [List.cons_append, ← heq]
      · intro w hw
        rcases List.mem_cons.mp hw with h1 | h1
        · rw [h1]
          exact lt_of_le_of_lt (pyMinKey_le key u rest u (List.mem_cons_self u rest)) h
        · exact hlt w h1
    · rw [if_neg h]
      obtain ⟨l₁, l₂, heq, hlt⟩ := ih x
      cases l₁ with
      | nil =>
        rw [List.nil_append] at heq
        injection heq with h1 h2
        refine ⟨[], u :: l₂, ?_, by intro w hw; exact absurd hw (List.not_mem_nil w)⟩
        rw [List.nil_append, ← h1, h2]
      | cons a l₁' =>
        rw [List.cons_append] at heq
        injection heq with h1 h2
        refine ⟨x :: u :: l₁', l₂, ?_, ?_⟩
        · rw [List.cons_append, List.cons_append, ← h2]
        · intro w hw
          have hxm : key (pyMinKey key x rest) < key x := by
            have := hlt a (List.mem_cons_self a l₁')
            rwa [← h1] at this
          rcases List.mem_cons.mp hw with hw1 | hw1
          · rw [hw1]
            exact hxm
          · rcases List.mem_cons.mp hw1 with hw2 | hw2
            · rw [hw2]
              exact lt_of_lt_of_le hxm (not_lt.mp h)
            · exact hlt w (List.mem_cons_of_mem a hw2)

/-! ## Dispatch case lemmas -/

theorem dispatch_nil {s : State} {ex : Option String} (crash_id : Nat) (lat lon : ℝ)
    (h : dispatchCandidates s ex = []) :
    dispatch s crash_id lat lon ex =
      ({ s with crashes := s.crashes.map fun c =>
          if c.id = crash_id then { c with status := .no_unit_available } else c }, none) := by
  unfold dispatch
  rw [h]

theorem dispatch_cons {s : State} {ex : Option String} {u : Ambulance} {us : List Ambulance}
    (crash_id : Nat) (lat lon : ℝ) (h : dispatchCandidates s ex = u :: us) :
    dispatch s crash_id lat lon ex =
      (let nearest := pyMinKey (fun v => haversine lat lon v.latitude v.longitude) u us
       let s1 : State := { s with crashes := s.crashes.map fun c =>
          if c.id = crash_id then
            { c with assigned_ambulance_id := some nearest.id, status := .waiting_for_driver }
          else c }
       ({ s1 with subscribers :=
            push_event s1.subscribers nearest.id (.mission_assigned crash_id nearest.id) },
         some nearest.id)) := by
  unfold dispatch
  rw [h]

theorem dispatch_frame (s : State) (crash_id : Nat) (lat lon : ℝ) (ex : Option String) :
    (dispatch s crash_id lat lon ex).1.ambulances = s.ambulances ∧
    (dispatch s crash_id lat lon ex).1.drivers = s.drivers ∧
    (dispatch s crash_id lat lon ex).1.next_crash_id = s.next_crash_id := by
  cases hc : dispatchCandidates s ex with
  | nil => rw [dispatch_nil _ _ _ hc]; exact ⟨rfl, rfl, rfl⟩
  | cons u us => rw [dispatch_cons _ _ _ hc]; exact ⟨rfl, rfl, rfl⟩

theorem dispatch_crashes (s : State) (crash_id : Nat) (lat lon : ℝ) (ex : Option String) :
    (dispatchCandidates s ex = [] ∧
      (dispatch s crash_id lat lon ex).1.crashes = s.crashes.map (fun c =>
        if c.id = crash_id then { c with status := .no_unit_available } else c) ∧
      (dispatch s crash_id lat lon ex).2 = none) ∨
    (∃ u us, dispatchCandidates s ex = u :: us ∧
      (dispatch s crash_id lat lon ex).1.crashes = s.crashes.map (fun c =>
        if c.id = crash_id then
          { c with
            assigned_ambulance_id := some
              (pyMinKey (fun v => haversine lat lon v.latitude v.longitude) u us).id,
            status := .waiting_for_driver }
        else c) ∧
      (dispatch s crash_id lat lon ex).2 =
        some (pyMinKey (fun v => haversine lat lon v.latitude v.longitude) u us).id) := by
  cases hc : dispatchCandidates s ex with
  | nil =>
    left
    rw [dispatch_nil _ _ _ hc]
    exact ⟨rfl, rfl, rfl⟩
  | cons u us =>
    right
    refine ⟨u, us, rfl, ?_, ?_⟩ <;> rw [dispatch_cons _ _ _ hc]

/-! ## Handler projection lemmas -/

theorem accept_mission_crashes (s : State) (du : String) (cid : Nat) :
    (accept_mission s du cid).crashes =
      s.crashes.map fun c =>
        if c.id = cid then { c with status := CrashStatus.en_route } else c := rfl

theorem accept_mission_ambulances (s : State) (du : String) (cid : Nat) :
    (accept_mission s du cid).ambulances =
      s.ambulances.map fun a =>
        if a.id = du then { a with is_available := false } else a := rfl

theorem arrived_crashes (s : State) (du : String) (cid : Nat) :
    (arrived s du cid).crashes =
      s.crashes.map fun c =>
        if c.id = cid then { c with status := CrashStatus.resolved } else c := rfl

theorem arrived_ambulances (s : State) (du : String) (cid : Nat) :
    (arrived s du cid).ambulances =
      s.ambulances.map fun a =>
        if a.id = du then { a with is_available := true } else a := rfl

theorem decline_none {s : State} {du : String} {cid : Nat}
    (h : (s.crashes.find? fun c => c.id == cid) = none) :
    decline_mission s du cid =
      ({ s with crashes := s.crashes.map fun c =>
          if c.id = cid then { c with status := .new, assigned_ambulance_id := none } else c },
        none) := by
  simp only [decline_mission]
  rw [h]

theorem decline_some {s : State} {du : String} {cid : Nat} {r : Crash}
    (h : (s.crashes.find? fun c => c.id == cid) = some r) :
    decline_mission s du cid =
      dispatch { s with crashes := s.crashes.map fun c =>
          if c.id = cid then { c with status := .new, assigned_ambulance_id := none } else c }
        cid r.latitude r.longitude (some du) := by
  simp only [decline_mission]
  rw [h]

/-! ## Per-crash effect lemmas -/

theorem accept_sets_en_route (s : State) (du : String) (cid : Nat) :
    ∀ c ∈ (accept_mission s du cid).crashes, c.id = cid → c.status = .en_route := by
  intro c hc hcid
  rw [accept_mission_crashes] at hc
  obtain ⟨c₀, hc₀, hmap⟩ := List.mem_map.mp hc
  by_cases h0 : c₀.id = cid
  · rw [if_pos h0] at hmap
    subst hmap
    rfl
  · rw [if_neg h0] at hmap
    subst hmap
    exact absurd hcid h0

theorem accept_sets_unavailable (s : State) (du : String) (cid : Nat) :
    ∀ a ∈ (accept_mission s du cid).ambulances, a.id = du → a.is_available = false := by
  intro a ha haid
  rw [accept_mission_ambulances] at ha
  obtain ⟨a₀, ha₀, hmap⟩ := List.mem_map.mp ha
  by_cases h0 : a₀.id = du
  · rw [if_pos h0] at hmap
    subst hmap
    rfl
  · rw [if_neg h0] at hmap
    subst hmap
    exact absurd haid h0

theorem arrived_sets_resolved (s : State) (du : String) (cid : Nat) :
    ∀ c ∈ (arrived s du cid).crashes, c.id = cid → c.status = .resolved := by
  intro c hc hcid
  rw [arrived_crashes] at hc
  obtain ⟨c₀, hc₀, hmap⟩ := List.mem_map.mp hc
  by_cases h0 : c₀.id = cid
  · rw [if_pos h0] at hmap
    subst hmap
    rfl
  · rw [if_neg h0] at hmap
    subst hmap
    exact absurd hcid h0

theorem arrived_sets_available (s : State) (du : String) (cid : Nat) :
    ∀ a ∈ (arrived s du cid).ambulances, a.id = du → a.is_available = true := by
  intro a ha haid
  rw [arrived_ambulances] at ha
  obtain ⟨a₀, ha₀, hmap⟩ := List.mem_map.mp ha
  by_cases h0 : a₀.id = du
  · rw [if_pos h0] at hmap
    subst hmap
    rfl
  · rw [if_neg h0] at hmap
    subst hmap
    exact absurd haid h0

theorem clearCrash_fields (s : State) (cid : Nat) :
    ∀ c ∈ (s.crashes.map fun c =>
        if c.id = cid then { c with status := CrashStatus.new, assigned_ambulance_id := none }
        else c), c.id = cid → c.status = .new ∧ c.assigned_ambulance_id = none := by
  intro c hc hcid
  obtain ⟨c₀, hc₀, hmap⟩ := List.mem_map.mp hc
  by_cases h0 : c₀.id = cid
  · rw [if_pos h0] at hmap
    subst hmap
    exact ⟨rfl, rfl⟩
  · rw [if_neg h0] at hmap
    subst hmap
    exact absurd hcid h0

theorem dispatchCandidates_exclude (s : State) (ex : String) :
    ∀ a ∈ dispatchCandidates s (some ex), a.id ≠ ex := by
  intro a ha
  unfold dispatchCandidates at ha
  have h := (List.mem_filter.mp ha).2
  simpa using h

theorem dispatch_ret_mem (s : State) (cid : Nat) (lat lon : ℝ) (ex : Option String)
    (uid : String) (h : (dispatch s cid lat lon ex).2 = some uid) :
    ∃ a ∈ dispatchCandidates s ex, a.id = uid := by
  rcases dispatch_crashes s cid lat lon ex with ⟨-, -, hret⟩ | ⟨u, us, hcand, -, hret⟩
  · rw [hret] at h
    exact absurd h (by simp)
  · rw [hret] at h
    injection h with h'
    exact ⟨pyMinKey (fun v => haversine lat lon v.latitude v.longitude) u us,
      hcand.symm ▸ pyMinKey_mem _ u us, h'⟩

theorem dispatch_crash_pairs (s : State) (cid : Nat) (lat lon : ℝ) (ex : Option String) :
    ∀ c ∈ (dispatch s cid lat lon ex).1.crashes, c.id = cid →
      (∃ c₀ ∈ s.crashes, c₀.id = cid ∧
        c.assigned_ambulance_id = c₀.assigned_ambulance_id ∧
        c.status = .no_unit_available ∧ (dispatch s cid lat lon ex).2 = none) ∨
      (∃ u ∈ dispatchCandidates s ex, c.assigned_ambulance_id = some u.id ∧
        c.status = .waiting_for_driver ∧ (dispatch s cid lat lon ex).2 = some u.id) := by
  intro c hc hcid
  rcases dispatch_crashes s cid lat lon ex with ⟨hcand, hcr, hret⟩ | ⟨u, us, hcand, hcr, hret⟩
  · left
    rw [hcr] at hc
    obtain ⟨c₀, hc₀, hmap⟩ := List.mem_map.mp hc
    by_cases h0 : c₀.id = cid
    · rw [if_pos h0] at hmap
      subst hmap
      exact ⟨c₀, hc₀, h0, rfl, rfl, hret⟩
    · rw [if_neg h0] at hmap
      subst hmap
      exact absurd hcid h0
  · right
    rw [hcr] at hc
    obtain ⟨c₀, hc₀, hmap⟩ := List.mem_map.mp hc
    by_cases h0 : c₀.id = cid
    · rw [if_pos h0] at hmap
      subst hmap
      exact ⟨pyMinKey (fun v => haversine lat lon v.latitude v.longitude) u us,
        hcand.symm ▸ pyMinKey_mem _ u us, rfl, rfl, hret⟩
    · rw [if_neg h0] at hmap
      subst hmap
      exact absurd hcid h0

/-! ## Claims about the dispatch selector and the mission transitions -/

/-- C2: for an incident in status `new` whose candidate set (available and
staffed units, after any exclusion) is non-empty, `dispatch` sets the
incident's status to `waiting_for_driver` and assigns a candidate of minimum
haversine distance to the incident location; ties go to the first candidate
in directory order (strictly closer than everything before it in the list). -/
theorem C2_dispatch_assigns_nearest (s : State) (cid : Nat) (lat lon : ℝ)
    (ex : Option String) (c : Crash)
    (hc : c ∈ s.crashes) (hcid : c.id = cid) (hnew : c.status = .new)
    (hne : dispatchCandidates s ex ≠ []) :
    ∃ u ∈ dispatchCandidates s ex,
      (∀ v ∈ dispatchCandidates s ex,
        haversine lat lon u.latitude u.longitude
          ≤ haversine lat lon v.latitude v.longitude) ∧
      (∃ l₁ l₂, dispatchCandidates s ex = l₁ ++ u :: l₂ ∧
        ∀ w ∈ l₁, haversine lat lon u.latitude u.longitude
          < haversine lat lon w.latitude w.longitude) ∧
      (dispatch s cid lat lon ex).2 = some u.id ∧
      ∀ c' ∈ (dispatch s cid lat lon ex).1.crashes, c'.id = cid →
        c'.status = .waiting_for_driver ∧ c'.assigned_ambulance_id = some u.id := by
  rcases dispatch_crashes s cid lat lon ex with ⟨hcand, -, -⟩ | ⟨u, us, hcand, hcr, hret⟩
  · exact absurd hcand hne
  · have hmem : pyMinKey (fun v => haversine lat lon v.latitude v.longitude) u us
        ∈ dispatchCandidates s ex := by
      rw [hcand]
      exact pyMinKey_mem _ u us
    have hmin : ∀ v ∈ dispatchCandidates s ex,
        haversine lat lon
            (pyMinKey (fun v => haversine lat lon v.latitude v.longitude) u us).latitude
            (pyMinKey (fun v => haversine lat lon v.latitude v.longitude) u us).longitude
          ≤ haversine lat lon v.latitude v.longitude := by
      intro v hv
      rw [hcand] at hv
      have h := pyMinKey_le (fun w => haversine lat lon w.latitude w.longitude) u us v hv
      exact h
    have hfirst := pyMinKey_first (fun v => haversine lat lon v.latitude v.longitude) u us
    obtain ⟨l₁, l₂, heq, hlt⟩ := hfirst
    have hupd : ∀ c' ∈ (dispatch s cid lat lon ex).1.crashes, c'.id = cid →
        c'.status = .waiting_for_driver ∧ c'.assigned_ambulance_id =
          some (pyMinKey (fun v => haversine lat lon v.latitude v.longitude) u us).id := by
      intro c' hc' hcid'
      rw [hcr] at hc'
      obtain ⟨c₀, hc₀, hmap⟩ := List.mem_map.mp hc'
      by_cases h0 : c₀.id = cid
      · rw [if_pos h0] at hmap
        subst hmap
        exact ⟨rfl, rfl⟩
      · rw [if_neg h0] at hmap
        subst hmap
        exact absurd hcid' h0
    exact ⟨pyMinKey (fun v => haversine lat lon v.latitude v.longitude) u us,
      hmem, hmin, ⟨l₁, l₂, by rw [hcand, heq], hlt⟩, hret, hupd⟩

/-- A concrete state for exercising C2: one incident in status `new` and one
available, staffed unit. -/
noncomputable def sW2 : State where
  crashes := [⟨1, 10, 76, .new, none⟩]
  ambulances := [⟨"Unit-01", 10.5276, 76.2144, true⟩]
  drivers := [⟨1, "Unit-01", true⟩]
  subscribers := []
  next_crash_id := 2

/-- Witness for C2 at `sW2`. -/
theorem C2_dispatch_assigns_nearest_witness :
    (⟨1, 10, 76, .new, none⟩ : Crash) ∈ sW2.crashes ∧
    (⟨1, 10, 76, CrashStatus.new, none⟩ : Crash).status = .new ∧
    dispatchCandidates sW2 none ≠ [] ∧
    ∃ u ∈ dispatchCandidates sW2 none,
      (∀ v ∈ dispatchCandidates sW2 none,
        haversine 10 76 u.latitude u.longitude
          ≤ haversine 10 76 v.latitude v.longitude) ∧
      (∃ l₁ l₂, dispatchCandidates sW2 none = l₁ ++ u :: l₂ ∧
        ∀ w ∈ l₁, haversine 10 76 u.latitude u.longitude
          < haversine 10 76 w.latitude w.longitude) ∧
      (dispatch sW2 1 10 76 none).2 = some u.id ∧
      ∀ c' ∈ (dispatch sW2 1 10 76 none).1.crashes, c'.id = 1 →
        c'.status = .waiting_for_driver ∧ c'.assigned_ambulance_id = some u.id := by
  have hmem : (⟨1, 10, 76, .new, none⟩ : Crash) ∈ sW2.crashes := by
    rw [show sW2.crashes = [⟨1, 10, 76, .new, none⟩] from rfl]
    exact List.mem_singleton.mpr rfl
  have hne : dispatchCandidates sW2 none ≠ [] := by
    rw [show dispatchCandidates sW2 none = [⟨"Unit-01", 10.5276, 76.2144, true⟩] from rfl]
    exact List.cons_ne_nil _ _
  exact ⟨hmem, rfl, hne,
    C2_dispatch_assigns_nearest sW2 1 10 76 none ⟨1, 10, 76, .new, none⟩ hmem rfl rfl hne⟩

/-- C5: for an incident in status `new` (hence unassigned: both call sites of
`dispatch` establish a null assignment) with no available+staffed candidate
after the exclusion filter, `dispatch` reports no unit, sets the incident's
status to `no_unit_available`, and the incident's assigned unit is null
afterwards. -/
theorem C5_dispatch_no_unit_available (s : State) (cid : Nat) (lat lon : ℝ)
    (ex : Option String)
    (hrow : ∀ c ∈ s.crashes, c.id = cid →
      c.status = .new ∧ c.assigned_ambulance_id = none)
    (hempty : dispatchCandidates s ex = []) :
    (dispatch s cid lat lon ex).2 = none ∧
    ∀ c' ∈ (dispatch s cid lat lon ex).1.crashes, c'.id = cid →
      c'.status = .no_unit_available ∧ c'.assigned_ambulance_id = none := by
  rw [dispatch_nil cid lat lon hempty]
  refine ⟨rfl, ?_⟩
  intro c' hc' hcid'
  obtain ⟨c₀, hc₀, hmap⟩ := List.mem_map.mp hc'
  by_cases h0 : c₀.id = cid
  · rw [if_pos h0] at hmap
    subst hmap
    exact ⟨rfl, (hrow c₀ hc₀ h0).2⟩
  · rw [if_neg h0] at hmap
    subst hmap
    exact absurd hcid' h0

/-- A concrete state for exercising C5: one incident in status `new` and no
on-duty driver, so the candidate set is empty. -/
noncomputable def sW5 : State where
  crashes := [⟨1, 10, 76, .new, none⟩]
  ambulances := [⟨"Unit-01", 10.5276, 76.2144, true⟩]
  drivers := [⟨1, "Unit-01", false⟩]
  subscribers := []
  next_crash_id := 2

/-- Witness for C5 at `sW5`. -/
theorem C5_dispatch_no_unit_available_witness :
    (∀ c ∈ sW5.crashes, c.id = 1 →
      c.status = .new ∧ c.assigned_ambulance_id = none) ∧
    dispatchCandidates sW5 none = [] ∧
    (dispatch sW5 1 10 76 none).2 = none ∧
    ∀ c' ∈ (dispatch sW5 1 10 76 none).1.crashes, c'.id = 1 →
      c'.status = .no_unit_available ∧ c'.assigned_ambulance_id = none := by
  have hrow : ∀ c ∈ sW5.crashes, c.id = 1 →
      c.status = .new ∧ c.assigned_ambulance_id = none := by
    intro c hc _
    rw [show sW5.crashes = [⟨1, 10, 76, .new, none⟩] from rfl] at hc
    rw [List.mem_singleton] at hc
    subst hc
    exact ⟨rfl, rfl⟩
  have hempty : dispatchCandidates sW5 none = [] := rfl
  obtain ⟨h1, h2⟩ := C5_dispatch_no_unit_available sW5 1 10 76 none hrow hempty
  exact ⟨hrow, hempty, h1, h2⟩

/-- C6: a decline re-dispatches with the declining unit excluded, so the unit
returned by the re-dispatch, and the unit recorded on the incident
afterwards, are never the unit that just declined. -/
theorem C6_decline_excludes_unit (s : State) (du : String) (cid : Nat) :
    (∀ uid, (decline_mission s du cid).2 = some uid → uid ≠ du) ∧
    (∀ c ∈ (decline_mission s du cid).1.crashes, c.id = cid →
      ∀ uid, c.assigned_ambulance_id = some uid → uid ≠ du) := by
  cases hrow : s.crashes.find? fun c => c.id == cid with
  | none =>
    rw [decline_none hrow]
    refine ⟨fun uid h => absurd h (by simp), fun c hc hcid uid hass => ?_⟩
    obtain ⟨-, hnone⟩ := clearCrash_fields s cid c hc hcid
    rw [hnone] at hass
    exact absurd hass (by simp)
  | some r =>
    rw [decline_some hrow]
    constructor
    · intro uid h
      obtain ⟨a, hamem, haid⟩ := dispatch_ret_mem _ cid r.latitude r.longitude (some du) uid h
      rw [← haid]
      exact dispatchCandidates_exclude _ du a hamem
    · intro c hc hcid uid hass
      rcases dispatch_crash_pairs _ cid r.latitude r.longitude (some du) c hc hcid with
        ⟨c₀, hc₀, hcid₀, hasseq, -, -⟩ | ⟨a, hamem, hassa, -, -⟩
      · obtain ⟨-, hnone⟩ := clearCrash_fields s cid c₀ hc₀ hcid₀
        rw [hasseq, hnone] at hass
        exact absurd hass (by simp)
      · rw [hassa] at hass
        injection hass with h'
        rw [← h']
        exact dispatchCandidates_exclude _ du a hamem

/-- A concrete state for exercising C6: an incident assigned to `Unit-01`,
with `Unit-02` also available, so declining from `Unit-01` reassigns to
`Unit-02`. -/
noncomputable def sW6 : State where
  crashes := [⟨1, 10, 76, .waiting_for_driver, some "Unit-01"⟩]
  ambulances := [⟨"Unit-01", 10.5276, 76.2144, true⟩, ⟨"Unit-02", 10.5167, 76.2167, true⟩]
  drivers := [⟨1, "Unit-01", true⟩, ⟨2, "Unit-02", true⟩]
  subscribers := []
  next_crash_id := 2

/-- Witness for C6 at `sW6`. -/
theorem C6_decline_excludes_unit_witness :
    (decline_mission sW6 "Unit-01" 1).2 = some "Unit-02" ∧
    ("Unit-02" : String) ≠ "Unit-01" :=
  ⟨rfl, (C6_decline_excludes_unit sW6 "Unit-01" 1).1 "Unit-02" rfl⟩

/-- C7: acknowledging an incident in `waiting_for_driver` assigned to the
caller's unit yields `en_route` and marks that unit unavailable; reporting
arrival on an incident in `en_route` assigned to the caller's unit yields
`resolved` and marks the unit available again. -/
theorem C7_acknowledge_arrive_effects (s : State) (du : String) (cid : Nat) :
    ((∀ c ∈ s.crashes, c.id = cid →
        c.status = .waiting_for_driver ∧ c.assigned_ambulance_id = some du) →
      (∀ c ∈ (accept_mission s du cid).crashes, c.id = cid → c.status = .en_route) ∧
      (∀ a ∈ (accept_mission s du cid).ambulances, a.id = du → a.is_available = false)) ∧
    ((∀ c ∈ s.crashes, c.id = cid →
        c.status = .en_route ∧ c.assigned_ambulance_id = some du) →
      (∀ c ∈ (arrived s du cid).crashes, c.id = cid → c.status = .resolved) ∧
      (∀ a ∈ (arrived s du cid).ambulances, a.id = du → a.is_available = true)) :=
  ⟨fun _ => ⟨accept_sets_en_route s du cid, accept_sets_unavailable s du cid⟩,
    fun _ => ⟨arrived_sets_resolved s du cid, arrived_sets_available s du cid⟩⟩

/-- A concrete state for exercising C7: incident 1 awaits acknowledgment by
`Unit-01`, incident 2 is en route with `Unit-01`. -/
noncomputable def sW7 : State where
  crashes := [⟨1, 10, 76, .waiting_for_driver, some "Unit-01"⟩,
    ⟨2, 11, 77, .en_route, some "Unit-01"⟩]
  ambulances := [⟨"Unit-01", 10.5276, 76.2144, true⟩]
  drivers := [⟨1, "Unit-01", true⟩]
  subscribers := []
  next_crash_id := 3

/-- Witness for C7 at `sW7`. -/
theorem C7_acknowledge_arrive_effects_witness :
    ((∀ c ∈ sW7.crashes, c.id = 1 →
        c.status = .waiting_for_driver ∧ c.assigned_ambulance_id = some "Unit-01") ∧
      (∀ c ∈ (accept_mission sW7 "Unit-01" 1).crashes, c.id = 1 → c.status = .en_route) ∧
      (∀ a ∈ (accept_mission sW7 "Unit-01" 1).ambulances, a.id = "Unit-01" →
        a.is_available = false)) ∧
    ((∀ c ∈ sW7.crashes, c.id = 2 →
        c.status = .en_route ∧ c.assigned_ambulance_id = some "Unit-01") ∧
      (∀ c ∈ (arrived sW7 "Unit-01" 2).crashes, c.id = 2 → c.status = .resolved) ∧
      (∀ a ∈ (arrived sW7 "Unit-01" 2).ambulances, a.id = "Unit-01" →
        a.is_available = true)) := by
  have hcrashes : sW7.crashes = [⟨1, 10, 76, .waiting_for_driver, some "Unit-01"⟩,
      ⟨2, 11, 77, .en_route, some "Unit-01"⟩] := rfl
  have hpre1 : ∀ c ∈ sW7.crashes, c.id = 1 →
      c.status = .waiting_for_driver ∧ c.assigned_ambulance_id = some "Unit-01" := by
    intro c hc hcid
    rw [hcrashes] at hc
    rcases List.mem_cons.mp hc with h | h
    · subst h
      exact ⟨rfl, rfl⟩
    · rw [List.mem_singleton] at h
      subst h
      exact absurd hcid (by decide)
  have hpre2 : ∀ c ∈ sW7.crashes, c.id = 2 →
      c.status = .en_route ∧ c.assigned_ambulance_id = some "Unit-01" := by
    intro c hc hcid
    rw [hcrashes] at hc
    rcases List.mem_cons.mp hc with h | h
    · subst h
      exact absurd hcid (by decide)
    · rw [List.mem_singleton] at h
      subst h
      exact ⟨rfl, rfl⟩
  exact ⟨⟨hpre1, (C7_acknowledge_arrive_effects sW7 "Unit-01" 1).1 hpre1⟩,
    ⟨hpre2, (C7_acknowledge_arrive_effects sW7 "Unit-01" 2).2 hpre2⟩⟩

/-! ## Claims C3 and C4: missing validation in the handlers -/

/-- A concrete state for C3: incident 1 is already `resolved`. -/
noncomputable def sEx3 : State where
  crashes := [⟨1, 10, 76, .resolved, some "Unit-01"⟩]
  ambulances := [⟨"Unit-01", 10.5276, 76.2144, true⟩]
  drivers := [⟨1, "Unit-01", true⟩]
  subscribers := []
  next_crash_id := 2

/-- C3 counterexample: acknowledging an already-resolved incident — a
transition not listed in the state table — does not fail with
`InvalidTransition` and does not leave the incident unchanged: the status is
silently overwritten to `en_route`. -/
theorem C3_counterexample :
    statusOf sEx3 1 = some .resolved ∧
    statusOf (accept_mission sEx3 "Unit-01" 1) 1 = some .en_route ∧
    (some CrashStatus.en_route ≠ some CrashStatus.resolved) :=
  ⟨rfl, rfl, by decide⟩

/-- C3 (amended): `accept_mission` and `arrived` perform no transition
validation at all: from any prior status (legal or not) they succeed,
unconditionally overwriting the incident's status with `en_route`
(resp. `resolved`) and the caller's unit availability with false
(resp. true); no `InvalidTransition` error exists in the code. -/
theorem C3_no_transition_validation (s : State) (du : String) (cid : Nat) :
    (∀ c ∈ (accept_mission s du cid).crashes, c.id = cid → c.status = .en_route) ∧
    (∀ a ∈ (accept_mission s du cid).ambulances, a.id = du → a.is_available = false) ∧
    (∀ c ∈ (arrived s du cid).crashes, c.id = cid → c.status = .resolved) ∧
    (∀ a ∈ (arrived s du cid).ambulances, a.id = du → a.is_available = true) :=
  ⟨accept_sets_en_route s du cid, accept_sets_unavailable s du cid,
    arrived_sets_resolved s du cid, arrived_sets_available s du cid⟩

/-- Witness for the amended C3 at `sEx3`: the resolved incident really is
flipped to `en_route` by an acknowledgment. -/
theorem C3_no_transition_validation_witness :
    (⟨1, 10, 76, .en_route, some "Unit-01"⟩ : Crash)
      ∈ (accept_mission sEx3 "Unit-01" 1).crashes ∧
    (⟨1, 10, 76, CrashStatus.en_route, some "Unit-01"⟩ : Crash).id = 1 ∧
    (⟨1, 10, 76, CrashStatus.en_route, some "Unit-01"⟩ : Crash).status = .en_route := by
  have hmem : (⟨1, 10, 76, .en_route, some "Unit-01"⟩ : Crash)
      ∈ (accept_mission sEx3 "Unit-01" 1).crashes := by
    rw [show (accept_mission sEx3 "Unit-01" 1).crashes
        = [⟨1, 10, 76, .en_route, some "Unit-01"⟩] from rfl]
    exact List.mem_singleton.mpr rfl
  exact ⟨hmem, rfl, (C3_no_transition_validation sEx3 "Unit-01" 1).1 _ hmem rfl⟩

/-- A concrete state for C4: incident 1 is assigned to `Unit-01`, while the
caller will be `Unit-02`. -/
noncomputable def sEx4 : State where
  crashes := [⟨1, 10, 76, .waiting_for_driver, some "Unit-01"⟩]
  ambulances := [⟨"Unit-01", 10.5276, 76.2144, true⟩, ⟨"Unit-02", 10.5167, 76.2167, true⟩]
  drivers := [⟨1, "Unit-01", true⟩, ⟨2, "Unit-02", true⟩]
  subscribers := []
  next_crash_id := 2

/-- C4 counterexample: a driver whose unit (`Unit-02`) is not the incident's
assigned unit (`Unit-01`) acknowledges the incident; the call does not fail
with `Unauthorized` and the state is mutated: the incident becomes
`en_route` and `Unit-02` is marked unavailable. -/
theorem C4_counterexample :
    assignedOf sEx4 1 = some (some "Unit-01") ∧
    ("Unit-02" : String) ≠ "Unit-01" ∧
    statusOf sEx4 1 = some .waiting_for_driver ∧
    statusOf (accept_mission sEx4 "Unit-02" 1) 1 = some .en_route ∧
    availOf (accept_mission sEx4 "Unit-02" 1) "Unit-02" = some false ∧
    (some CrashStatus.en_route ≠ some CrashStatus.waiting_for_driver) :=
  ⟨rfl, by decide, rfl, rfl, rfl, by decide⟩

/-- C4 (amended): `accept_mission`, `decline_mission` and `arrived` perform
no authorization check: a logged-in driver whose unit is not the incident's
assigned unit still succeeds and mutates state — acknowledge sets the status
to `en_route` and marks the caller's own unit unavailable, arrival resolves
the incident, and decline reopens and re-dispatches it (ending in
`no_unit_available` or `waiting_for_driver`). -/
theorem C4_no_authorization_check (s : State) (du : String) (cid : Nat) (c : Crash)
    (hc : c ∈ s.crashes) (hcid : c.id = cid)
    (hmis : c.assigned_ambulance_id ≠ some du) :
    (∀ c' ∈ (accept_mission s du cid).crashes, c'.id = cid → c'.status = .en_route) ∧
    (∀ a ∈ (accept_mission s du cid).ambulances, a.id = du → a.is_available = false) ∧
    (∀ c' ∈ (arrived s du cid).crashes, c'.id = cid → c'.status = .resolved) ∧
    (∀ c' ∈ (decline_mission s du cid).1.crashes, c'.id = cid →
      c'.status = .no_unit_available ∨ c'.status = .waiting_for_driver) := by
  refine ⟨accept_sets_en_route s du cid, accept_sets_unavailable s du cid,
    arrived_sets_resolved s du cid, ?_⟩
  have hsome : (s.crashes.find? fun x => x.id == cid).isSome :=
    List.find?_isSome.mpr ⟨c, hc, by simp [hcid]⟩
  obtain ⟨r, hr⟩ := Option.isSome_iff_exists.mp hsome
  rw [decline_some hr]
  intro c' hc' hcid'
  rcases dispatch_crash_pairs _ cid r.latitude r.longitude (some du) c' hc' hcid' with
    ⟨-, -, -, -, hst, -⟩ | ⟨-, -, -, hst, -⟩
  · exact Or.inl hst
  · exact Or.inr hst

/-- Witness for the amended C4 at `sEx4`, with caller unit `Unit-02` not the
assigned `Unit-01`. -/
theorem C4_no_authorization_check_witness :
    (⟨1, 10, 76, .waiting_for_driver, some "Unit-01"⟩ : Crash) ∈ sEx4.crashes ∧
    ((⟨1, 10, 76, CrashStatus.waiting_for_driver, some "Unit-01"⟩ : Crash).assigned_ambulance_id
      ≠ some "Unit-02") ∧
    (∀ c' ∈ (accept_mission sEx4 "Unit-02" 1).crashes, c'.id = 1 → c'.status = .en_route) ∧
    (∀ c' ∈ (decline_mission sEx4 "Unit-02" 1).1.crashes, c'.id = 1 →
      c'.status = .no_unit_available ∨ c'.status = .waiting_for_driver) := by
  have hmem : (⟨1, 10, 76, .waiting_for_driver, some "Unit-01"⟩ : Crash) ∈ sEx4.crashes := by
    rw [show sEx4.crashes = [⟨1, 10, 76, .waiting_for_driver, some "Unit-01"⟩] from rfl]
    exact List.mem_singleton.mpr rfl
  have hmis : (⟨1, 10, 76, CrashStatus.waiting_for_driver, some "Unit-01"⟩ :
      Crash).assigned_ambulance_id ≠ some "Unit-02" := by decide
  have happ := C4_no_authorization_check sEx4 "Unit-02" 1 _ hmem rfl hmis
  exact ⟨hmem, hmis, happ.1, happ.2.2.2⟩

/-! ## Claim C1: the status/assignment invariant over reachable states -/

/-- The invariant that actually holds on reachable states (strengthened with
id-freshness to survive the induction): crash ids are below the autoincrement
counter, `waiting_for_driver` implies an assignment is present, and `new` or
`no_unit_available` imply the assignment is null. -/
def CrashInv (s : State) : Prop :=
  ∀ c ∈ s.crashes, c.id < s.next_crash_id ∧
    (c.status = .waiting_for_driver → c.assigned_ambulance_id ≠ none) ∧
    (c.status = .new → c.assigned_ambulance_id = none) ∧
    (c.status = .no_unit_available → c.assigned_ambulance_id = none)

theorem clear_crashInv (s : State) (cid : Nat) (hinv : CrashInv s) :
    CrashInv { s with crashes := s.crashes.map fun c =>
      if c.id = cid then { c with status := CrashStatus.new, assigned_ambulance_id := none }
      else c } := by
  intro c hc
  obtain ⟨c₀, hc₀, hmap⟩ := List.mem_map.mp hc
  obtain ⟨hid, h1, h2, h3⟩ := hinv c₀ hc₀
  by_cases h0 : c₀.id = cid
  · rw [if_pos h0] at hmap
    subst hmap
    exact ⟨hid, nofun, fun _ => rfl, nofun⟩
  · rw [if_neg h0] at hmap
    subst hmap
    exact ⟨hid, h1, h2, h3⟩

theorem dispatch_crashInv (s : State) (cid : Nat) (lat lon : ℝ) (ex : Option String)
    (hinv : CrashInv s)
    (hnull : ∀ c ∈ s.crashes, c.id = cid → c.assigned_ambulance_id = none) :
    CrashInv (dispatch s cid lat lon ex).1 := by
  intro c hc
  have hnext : (dispatch s cid lat lon ex).1.next_crash_id = s.next_crash_id :=
    (dispatch_frame s cid lat lon ex).2.2
  rcases dispatch_crashes s cid lat lon ex with ⟨-, hcr, -⟩ | ⟨u, us, -, hcr, -⟩
  · rw [hcr] at hc
    obtain ⟨c₀, hc₀, hmap⟩ := List.mem_map.mp hc
    obtain ⟨hid, h1, h2, h3⟩ := hinv c₀ hc₀
    by_cases h0 : c₀.id = cid
    · rw [if_pos h0] at hmap
      subst hmap
      exact ⟨by rw [hnext]; exact hid, nofun, nofun, fun _ => hnull c₀ hc₀ h0⟩
    · rw [if_neg h0] at hmap
      subst hmap
      exact ⟨by rw [hnext]; exact hid, h1, h2, h3⟩
  · rw [hcr] at hc
    obtain ⟨c₀, hc₀, hmap⟩ := List.mem_map.mp hc
    obtain ⟨hid, h1, h2, h3⟩ := hinv c₀ hc₀
    by_cases h0 : c₀.id = cid
    · rw [if_pos h0] at hmap
      subst hmap
      exact ⟨by rw [hnext]; exact hid, fun _ => nofun, nofun, nofun⟩
    · rw [if_neg h0] at hmap
      subst hmap
      exact ⟨by rw [hnext]; exact hid, h1, h2, h3⟩

theorem reachable_crashInv (s : State) (h : Reachable s) : CrashInv s := by
  induction h with
  | init =>
    intro c hc
    exact absurd hc (List.not_mem_nil c)
  | simulate s d1 d2 h1 h2 hr ih =>
    show CrashInv (dispatch
      { s with
        crashes := s.crashes
          ++ [⟨s.next_crash_id, 10.5276 + d1, 76.2144 + d2, .new, none⟩],
        next_crash_id := s.next_crash_id + 1 }
      s.next_crash_id (10.5276 + d1) (76.2144 + d2) none).1
    apply dispatch_crashInv
    · intro c hc
      rcases List.mem_append.mp hc with hm | hm
      · obtain ⟨hid, hrest⟩ := ih c hm
        exact ⟨Nat.lt_succ_of_lt hid, hrest⟩
      · rw [List.mem_singleton] at hm
        subst hm
        exact ⟨Nat.lt_succ_self _, nofun, fun _ => rfl, nofun⟩
    · intro c hc hcid
      rcases List.mem_append.mp hc with hm | hm
      · obtain ⟨hid, -, -, -⟩ := ih c hm
        exact absurd hcid (Nat.ne_of_lt hid)
      · rw [List.mem_singleton] at hm
        subst hm
        rfl
  | accept s d cid hd hr ih =>
    intro c hc
    rw [accept_mission_crashes] at hc
    obtain ⟨c₀, hc₀, hmap⟩ := List.mem_map.mp hc
    obtain ⟨hid, h1, h2, h3⟩ := ih c₀ hc₀
    by_cases h0 : c₀.id = cid
    · rw [if_pos h0] at hmap
      subst hmap
      exact ⟨hid, nofun, nofun, nofun⟩
    · rw [if_neg h0] at hmap
      subst hmap
      exact ⟨hid, h1, h2, h3⟩
  | decline s d cid hd hr ih =>
    show CrashInv (decline_mission s d.unit_id cid).1
    cases hrow : s.crashes.find? fun c => c.id == cid with
    | none =>
      rw [decline_none hrow]
      exact clear_crashInv s cid ih
    | some r =>
      rw [decline_some hrow]
      exact dispatch_crashInv _ cid r.latitude r.longitude (some d.unit_id)
        (clear_crashInv s cid ih)
        (fun c hc hcid => (clearCrash_fields s cid c hc hcid).2)
  | arrive s d cid hd hr ih =>
    intro c hc
    rw [arrived_crashes] at hc
    obtain ⟨c₀, hc₀, hmap⟩ := List.mem_map.mp hc
    obtain ⟨hid, h1, h2, h3⟩ := ih c₀ hc₀
    by_cases h0 : c₀.id = cid
    · rw [if_pos h0] at hmap
      subst hmap
      exact ⟨hid, nofun, nofun, nofun⟩
    · rw [if_neg h0] at hmap
      subst hmap
      exact ⟨hid, h1, h2, h3⟩
  | availability s d hd on_duty hr ih =>
    exact fun c hc => ih c hc
  | logout_op s d hd hr ih =>
    exact fun c hc => ih c hc
  | subscribe s d hd cid hr ih =>
    exact fun c hc => ih c hc
  | cleanup s uid cid hr ih =>
    exact fun c hc => ih c hc

/-- C1 (amended): on every reachable state, an incident in
`waiting_for_driver` has a non-null assigned unit, and an incident in `new`
or `no_unit_available` has a null assigned unit.  (The claimed full iff fails
in the other direction: see the counterexample — `arrived` leaves the
assignment on a `resolved` incident, and `accept_mission` can produce
`en_route` with no assignment since it validates nothing.) -/
theorem C1_assignment_invariant (s : State) (h : Reachable s) :
    ∀ c ∈ s.crashes,
      (c.status = .waiting_for_driver → c.assigned_ambulance_id ≠ none) ∧
      (c.status = .new → c.assigned_ambulance_id = none) ∧
      (c.status = .no_unit_available → c.assigned_ambulance_id = none) :=
  fun c hc => (reachable_crashInv s h c hc).2

/-- A reachable run: put `Unit-01` on duty, report an incident at the base
point (assigned to `Unit-01`), acknowledge it, then report arrival. -/
noncomputable def sC1 : State :=
  arrived
    (accept_mission
      (simulate_crash (set_availability initState ⟨1, "Unit-01", false⟩ true)
        (10.5276 + 0) (76.2144 + 0)).1
      "Unit-01" 1)
    "Unit-01" 1

/-- C1 counterexample: the reachable state `sC1` has incident 1 `resolved`
with `assigned_ambulance_id` still `Unit-01` — non-null while the status is
neither `waiting_for_driver` nor `en_route`, refuting the claimed iff. -/
theorem C1_counterexample :
    Reachable sC1 ∧
    statusOf sC1 1 = some .resolved ∧
    assignedOf sC1 1 = some (some "Unit-01") ∧
    (CrashStatus.resolved ≠ .waiting_for_driver ∧ CrashStatus.resolved ≠ .en_route) := by
  refine ⟨?_, rfl, rfl, by decide⟩
  have h1 : Reachable (set_availability initState ⟨1, "Unit-01", false⟩ true) :=
    Reachable.availability initState ⟨1, "Unit-01", false⟩ (by decide) true Reachable.init
  have h2 : Reachable (simulate_crash (set_availability initState ⟨1, "Unit-01", false⟩ true)
      (10.5276 + 0) (76.2144 + 0)).1 :=
    Reachable.simulate _ 0 0 (by norm_num) (by norm_num) h1
  have h3 : Reachable (accept_mission
      (simulate_crash (set_availability initState ⟨1, "Unit-01", false⟩ true)
        (10.5276 + 0) (76.2144 + 0)).1 "Unit-01" 1) :=
    Reachable.accept _ ⟨1, "Unit-01", true⟩ 1 (by decide) h2
  exact Reachable.arrive _ ⟨1, "Unit-01", true⟩ 1 (by decide) h3

/-- The reachable state after the report: incident 1 awaits `Unit-01`. -/
noncomputable def sW1 : State :=
  (simulate_crash (set_availability initState ⟨1, "Unit-01", false⟩ true)
    (10.5276 + 0) (76.2144 + 0)).1

/-- The incident row of `sW1`. -/
noncomputable def cW1 : Crash :=
  ⟨1, 10.5276 + 0, 76.2144 + 0, .waiting_for_driver, some "Unit-01"⟩

/-- Witness for the amended C1 at the reachable state `sW1`, whose single
incident is `waiting_for_driver` with a non-null assignment. -/
theorem C1_assignment_invariant_witness :
    Reachable sW1 ∧ cW1 ∈ sW1.crashes ∧
    (cW1.status = .waiting_for_driver → cW1.assigned_ambulance_id ≠ none) ∧
    (cW1.status = .new → cW1.assigned_ambulance_id = none) ∧
    (cW1.status = .no_unit_available → cW1.assigned_ambulance_id = none) := by
  have hreach : Reachable sW1 :=
    Reachable.simulate _ 0 0 (by norm_num) (by norm_num)
      (Reachable.availability initState ⟨1, "Unit-01", false⟩ (by decide) true Reachable.init)
  have hmem : cW1 ∈ sW1.crashes := by
    rw [show sW1.crashes = [cW1] from rfl]
    exact List.mem_singleton.mpr rfl
  obtain ⟨ha, hb, hc⟩ := C1_assignment_invariant sW1 hreach cW1 hmem
  exact ⟨hreach, hmem, ha, hb, hc⟩

end CrashGuard
